import Mathlib

/-!
# Shallow embedding of the CeLux encode pipeline

This file embeds `src/CeLux/backends/Encoder.cpp` (class `celux::Encoder`).
The encoder drives a pixel converter, an FFmpeg codec context, a reusable
`AVPacket` and an output format context.

Modelling choices:

* The session state (`EncoderState`) records whether each owned handle
  (`formatCtx`, `codecCtx`, `packet`, `stream`, `hwDeviceCtx`, `hwFramesCtx`)
  is non-null, plus the `pts` counter (`int64_t pts`, never near overflow in
  any reachable behaviour, modelled as `Int`).
* The outcomes of the external FFmpeg calls (`avcodec_send_frame`,
  `avcodec_receive_packet`, `av_interleaved_write_frame`,
  `avformat_write_header`, ...) and of `IConverter::convert` are inputs of
  the model: each operation takes an environment describing what the codec,
  converter and muxer answer.
* Each operation returns, besides the C++ return value, the resulting state
  and the trace of codec/muxer interactions performed (`Act`).  A thrown
  `CxException` is an explicit error value (`Err`); `encodeFrame`'s
  `try/catch` boundary converts body errors to a `false` return plus a
  diagnostic, exactly as the C++ catch block does.
* The receive loops consume a list of per-iteration codec answers (`Ev`).
  In the `encodeFrame` drain loop, `AVERROR(EAGAIN)` and `AVERROR_EOF` hit
  an explicit `break` (line 193).  In the `finalize` flush loop,
  `AVERROR_EOF` hits a `break` (line 243) while `AVERROR(EAGAIN)` hits a
  `continue` (line 247) — but `continue` re-evaluates `while (ret >= 0)`
  with `ret = AVERROR(EAGAIN) < 0`, so the flush loop exits there as well;
  the model records which way the loop was left (`drained` vs
  `eagainExit`).  An exhausted answer list in the flush loop is the
  distinct outcome `starved` (the environment gave no further answer; the
  real loop always receives one); in the `encodeFrame` drain loop an
  exhausted list behaves like `AVERROR(EAGAIN)`, which there simply breaks
  the loop.
-/

namespace CeLux

/-- The distinct `CxException` throw sites of `Encoder.cpp`, in source
order. -/
inductive Err where
  | packetAllocErr
  | allocOutputCtxErr
  | openOutputFileErr
  | encoderNotFoundErr
  | allocCodecCtxErr
  | codecOpenErr
  | streamAllocErr
  | paramCopyErr
  | headerWriteErr
  | notOpenErr
  | convertErr
  | sendFrameErr
  | encodingErr
  | writePacketErr
  | flushSendErr
  | flushEncodingErr
  | writeFlushedPacketErr
  | trailerWriteErr
  deriving DecidableEq, Repr

/-- Session state of one `Encoder`: which owned handles are non-null, and
the presentation-timestamp counter `pts`. -/
structure EncoderState where
  hasFormatCtx : Bool
  hasCodecCtx : Bool
  hasPacket : Bool
  hasStream : Bool
  hasHwDeviceCtx : Bool
  hasHwFramesCtx : Bool
  pts : Int
  deriving DecidableEq, Repr

/-- `Encoder::isOpen`: `formatCtx && codecCtx` (Encoder.cpp lines 279-282). -/
def isOpen (s : EncoderState) : Bool :=
  s.hasFormatCtx && s.hasCodecCtx

/-- State established by the constructor (Encoder.cpp lines 8-16): contexts
null, `packet` allocated, `pts` 0. -/
def initialState : EncoderState :=
  ⟨false, false, true, false, false, false, 0⟩

/-- State left behind in `other` by the move constructor (Encoder.cpp lines
23-33): smart pointers moved out, `stream` and `packet` nulled; the `pts`
value is merely copied, not cleared. -/
def movedFrom (s : EncoderState) : EncoderState :=
  ⟨false, false, false, false, false, false, s.pts⟩

/-- One answer of `avcodec_receive_packet` plus, when a packet is produced,
the outcome of the subsequent `av_interleaved_write_frame`. -/
inductive Ev where
  | again
  | eos
  | recvErr
  | pkt (writeOk : Bool)
  deriving DecidableEq, Repr

/-- Observable codec/muxer interactions, in the order the code performs
them. `send p` is a call of `avcodec_send_frame` with the frame stamped
with presentation timestamp `p`. -/
inductive Act where
  | convert
  | send (p : Int)
  | recv
  | rescale
  | setStreamIndex
  | write
  | unref
  | sendFlush
  | writeTrailer
  deriving DecidableEq, Repr

/-- The per-packet relay performed by both receive loops (Encoder.cpp lines
200-212 and 254-266): receive, `av_packet_rescale_ts`, stream-index
assignment, `av_interleaved_write_frame`, `av_packet_unref`. -/
def pktActs : List Act :=
  [Act.recv, Act.rescale, Act.setStreamIndex, Act.write, Act.unref]

/-- Environment of one `encodeFrame` call: whether `converter->convert`
succeeds, whether `avcodec_send_frame` returns `>= 0`, and the successive
answers of the receive loop. -/
structure EncodeEnv where
  convertOk : Bool
  sendOk : Bool
  events : List Ev

/-- The receive loop of `Encoder::encodeFrame` (Encoder.cpp lines 188-213):
`EAGAIN`/`EOF` break the loop; another negative receive throws (line 197);
a produced packet is rescaled, indexed and written; a failed write unrefs
the packet and throws (lines 206-210); a successful write unrefs the packet
and loops.  Result: the exception in flight (if any) and the trace. -/
def encodeDrain : List Ev → Option Err × List Act
  | [] => (none, [])
  | Ev.again :: _ => (none, [])
  | Ev.eos :: _ => (none, [])
  | Ev.recvErr :: _ => (some Err.encodingErr, [])
  | Ev.pkt ok :: rest =>
    if ok then ((encodeDrain rest).1, pktActs ++ (encodeDrain rest).2)
    else (some Err.writePacketErr, pktActs)

/-- The body of `Encoder::encodeFrame`'s outer `try` block (Encoder.cpp
lines 160-215): not-open check (throws), conversion (a failure is rethrown
as `CxException`, line 173), `frame->pts = pts++` (line 177),
`avcodec_send_frame` (throws if negative, line 184), then the receive loop.
Returns the exception in flight (if any), the state after the body, and the
trace; note the `pts` increment survives a later throw. -/
def encodeFrameBody (env : EncodeEnv) (s : EncoderState) :
    Option Err × EncoderState × List Act :=
  if isOpen s = false then (some Err.notOpenErr, s, [])
  else if env.convertOk = false then (some Err.convertErr, s, [])
  else
    let p := s.pts
    let s1 := { s with pts := s.pts + 1 }
    if env.sendOk = false then (some Err.sendFrameErr, s1, [Act.convert, Act.send p])
    else ((encodeDrain env.events).1, s1,
          Act.convert :: Act.send p :: (encodeDrain env.events).2)

/-- Result of `Encoder::encodeFrame`: the returned `bool`, the state after
the call, the trace, and the diagnostics written to `std::cerr`. -/
structure FrameResult where
  ret : Bool
  state : EncoderState
  trace : List Act
  diags : List Err
  deriving DecidableEq, Repr

/-- `Encoder::encodeFrame` (Encoder.cpp lines 157-222): the body wrapped in
`try/catch (const std::exception&)`; every `CxException` thrown in the body
is caught at this boundary, a diagnostic is emitted (line 219), and the
call returns `false` (line 220); a body that completes returns `true`. -/
def encodeFrame (env : EncodeEnv) (s : EncoderState) : FrameResult :=
  match (encodeFrameBody env s).1 with
  | some e => ⟨false, (encodeFrameBody env s).2.1, (encodeFrameBody env s).2.2, [e]⟩
  | none => ⟨true, (encodeFrameBody env s).2.1, (encodeFrameBody env s).2.2, []⟩

/-- Outcome of the `finalize` flush loop: left via the `AVERROR_EOF`
`break`, left via the while-condition after an `AVERROR(EAGAIN)`
`continue`, threw, or the environment supplied no further answer. -/
inductive FlushStep where
  | drained
  | eagainExit
  | threw (e : Err)
  | starved
  deriving DecidableEq, Repr

/-- The flush loop of `Encoder::finalize` (Encoder.cpp lines 238-267):
`AVERROR_EOF` breaks (line 243); `AVERROR(EAGAIN)` executes `continue`
(line 247), which re-evaluates `while (ret >= 0)` with
`ret = AVERROR(EAGAIN) < 0`, so the loop exits there too; another negative
receive throws (line 251); packets are relayed as in `encodeDrain`, with a
failed write unreffing then throwing (lines 260-264). -/
def flushDrain : List Ev → FlushStep × List Act
  | [] => (FlushStep.starved, [])
  | Ev.again :: _ => (FlushStep.eagainExit, [])
  | Ev.eos :: _ => (FlushStep.drained, [])
  | Ev.recvErr :: _ => (FlushStep.threw Err.flushEncodingErr, [])
  | Ev.pkt ok :: rest =>
    if ok then ((flushDrain rest).1, pktActs ++ (flushDrain rest).2)
    else (FlushStep.threw Err.writeFlushedPacketErr, pktActs)

/-- Modelled from the spec, for comparison with `flushDrain`: the flush
loop as the spec describes it — an `AVERROR(EAGAIN)` answer during drain
means "try again, keep looping", and the loop terminates only at the
explicit end-of-stream signal.  This is what the `continue` at
Encoder.cpp line 247 was evidently meant to do; the source's loop differs
(see `flushDrain`). -/
def flushDrainSpec : List Ev → FlushStep × List Act
  | [] => (FlushStep.starved, [])
  | Ev.again :: rest => flushDrainSpec rest
  | Ev.eos :: _ => (FlushStep.drained, [])
  | Ev.recvErr :: _ => (FlushStep.threw Err.flushEncodingErr, [])
  | Ev.pkt ok :: rest =>
    if ok then ((flushDrainSpec rest).1, pktActs ++ (flushDrainSpec rest).2)
    else (FlushStep.threw Err.writeFlushedPacketErr, pktActs)

/-- Environment of one `finalize` call: whether the flush
`avcodec_send_frame(ctx, nullptr)` returns `>= 0`, the flush-loop answers,
and whether `av_write_trailer` returns `>= 0`. -/
structure FinalizeEnv where
  flushSendOk : Bool
  events : List Ev
  trailerOk : Bool

/-- Result of `Encoder::finalize`: returned `true`, returned `false`, threw
a `CxException`, or the loop environment was exhausted. -/
inductive FinalizeRet where
  | retTrue
  | retFalse
  | thrown (e : Err)
  | starved
  deriving DecidableEq, Repr

/-- `Encoder::finalize` (Encoder.cpp lines 224-277): returns `false` when
not open (lines 226-229); sends the flush frame, throwing on a negative
return (lines 232-236); runs the flush loop — which is left either by the
`AVERROR_EOF` `break` or by the while-condition after an `AVERROR(EAGAIN)`
`continue`, and in both cases execution falls through to the trailer —
then calls `av_write_trailer`, throwing on a negative return (lines
270-274); otherwise returns `true`.  No member handle is modified, so the
state passes through unchanged. -/
def finalize (env : FinalizeEnv) (s : EncoderState) :
    FinalizeRet × EncoderState × List Act :=
  if isOpen s = false then (FinalizeRet.retFalse, s, [])
  else if env.flushSendOk = false then
    (FinalizeRet.thrown Err.flushSendErr, s, [Act.sendFlush])
  else
    match (flushDrain env.events).1 with
    | FlushStep.drained =>
      if env.trailerOk then
        (FinalizeRet.retTrue, s,
         Act.sendFlush :: ((flushDrain env.events).2 ++ [Act.writeTrailer]))
      else
        (FinalizeRet.thrown Err.trailerWriteErr, s,
         Act.sendFlush :: ((flushDrain env.events).2 ++ [Act.writeTrailer]))
    | FlushStep.eagainExit =>
      if env.trailerOk then
        (FinalizeRet.retTrue, s,
         Act.sendFlush :: ((flushDrain env.events).2 ++ [Act.writeTrailer]))
      else
        (FinalizeRet.thrown Err.trailerWriteErr, s,
         Act.sendFlush :: ((flushDrain env.events).2 ++ [Act.writeTrailer]))
    | FlushStep.threw e =>
      (FinalizeRet.thrown e, s, Act.sendFlush :: (flushDrain env.events).2)
    | FlushStep.starved =>
      (FinalizeRet.starved, s, Act.sendFlush :: (flushDrain env.events).2)

/-- Result of `Encoder::close`: returned normally, or a `CxException`
escaped, or the flush-loop environment was exhausted. -/
inductive CloseRet where
  | done
  | thrown (e : Err)
  | starved
  deriving DecidableEq, Repr

/-- `Encoder::close` (Encoder.cpp lines 284-299): calls `finalize()` with
no `try/catch`, so an exception thrown by `finalize` escapes `close` before
any teardown runs; otherwise frees `packet`, resets `codecCtx`, `formatCtx`,
`hwDeviceCtx`, `hwFramesCtx` and nulls `stream`. -/
def close (env : FinalizeEnv) (s : EncoderState) : CloseRet × EncoderState :=
  match (finalize env s).1 with
  | FinalizeRet.thrown e => (CloseRet.thrown e, (finalize env s).2.1)
  | FinalizeRet.starved => (CloseRet.starved, (finalize env s).2.1)
  | _ =>
    (CloseRet.done,
     { (finalize env s).2.1 with
        hasPacket := false, hasCodecCtx := false, hasFormatCtx := false,
        hasHwDeviceCtx := false, hasHwFramesCtx := false, hasStream := false })

/-- Outcome of `Encoder::~Encoder`: a C++ exception escaping a destructor
calls `std::terminate`. -/
inductive DtorRet where
  | returned
  | terminated
  deriving DecidableEq, Repr

/-- `Encoder::~Encoder` (Encoder.cpp lines 18-21): calls `close()`; the
destructor is not `noexcept(false)`, so an exception propagating out of
`close` terminates the program. -/
def destructor (env : FinalizeEnv) (s : EncoderState) : DtorRet :=
  match (close env s).1 with
  | CloseRet.thrown _ => DtorRet.terminated
  | _ => DtorRet.returned

/-- Environment of one `initialize` call: success of each fallible step, in
source order (`avformat_alloc_output_context2`, the `AVFMT_NOFILE` test and
`avio_open`, `avcodec_find_encoder_by_name`, `avcodec_alloc_context3`,
`avcodec_open2`, `avformat_new_stream`, `avcodec_parameters_from_context`,
`avformat_write_header`). -/
structure InitEnv where
  allocOutputCtxOk : Bool
  formatNeedsFile : Bool
  avioOpenOk : Bool
  codecFound : Bool
  allocCodecCtxOk : Bool
  codecOpenOk : Bool
  newStreamOk : Bool
  paramCopyOk : Bool
  headerWriteOk : Bool

/-- Result of `Encoder::initialize`: returned, or threw a `CxException`. -/
inductive InitRet where
  | ok
  | thrown (e : Err)
  deriving DecidableEq, Repr

/-- `Encoder::initialize` together with the helpers it calls,
`Encoder::openFile` and `Encoder::initCodecContext` (Encoder.cpp lines
58-148).  The state records exactly which handles are set before each
throw site: `formatCtx.reset(fmt_ctx)` precedes the `avio_open` check
(lines 104-113), `codecCtx.reset(codec_ctx)` precedes `avcodec_open2`
(lines 130-147), and `stream` is set at line 71 before the parameter copy
and header write.  (Named `initEncoder` because the source's name is a
reserved word in Lean.) -/
def initEncoder (env : InitEnv) (s : EncoderState) : InitRet × EncoderState :=
  if env.allocOutputCtxOk = false then (InitRet.thrown Err.allocOutputCtxErr, s)
  else
    let s1 := { s with hasFormatCtx := true }
    if env.formatNeedsFile && !env.avioOpenOk then
      (InitRet.thrown Err.openOutputFileErr, s1)
    else if env.codecFound = false then (InitRet.thrown Err.encoderNotFoundErr, s1)
    else if env.allocCodecCtxOk = false then (InitRet.thrown Err.allocCodecCtxErr, s1)
    else
      let s2 := { s1 with hasCodecCtx := true }
      if env.codecOpenOk = false then (InitRet.thrown Err.codecOpenErr, s2)
      else if env.newStreamOk = false then (InitRet.thrown Err.streamAllocErr, s2)
      else
        let s3 := { s2 with hasStream := true }
        if env.paramCopyOk = false then (InitRet.thrown Err.paramCopyErr, s3)
        else if env.headerWriteOk = false then (InitRet.thrown Err.headerWriteErr, s3)
        else (InitRet.ok, s3)

/-- The presentation timestamps of the `avcodec_send_frame` calls in a
trace, in order. -/
def sends : List Act → List Int
  | [] => []
  | Act.send p :: tr => p :: sends tr
  | _ :: tr => sends tr

/-- `consecFrom p n = [p, p + 1, ..., p + n - 1]`. -/
def consecFrom : Int → Nat → List Int
  | _, 0 => []
  | p, n + 1 => p :: consecFrom (p + 1) n

/-- Run a sequence of `encodeFrame` calls, threading the state and
concatenating the traces. -/
def runEncodes : List EncodeEnv → EncoderState → EncoderState × List Act
  | [], s => (s, [])
  | e :: es, s =>
    ((runEncodes es (encodeFrame e s).state).1,
     (encodeFrame e s).trace ++ (runEncodes es (encodeFrame e s).state).2)

/-- Every `write` in the trace is immediately followed by an `unref`. -/
def writesUnrefed : List Act → Bool
  | [] => true
  | [a] => !(a == Act.write)
  | a :: b :: tr =>
    if a == Act.write then (b == Act.unref) && writesUnrefed (b :: tr)
    else writesUnrefed (b :: tr)

/-- A concrete freshly-opened session: both contexts and the stream set,
`pts = 0`. -/
def sOpen0 : EncoderState :=
  ⟨true, true, true, true, false, false, 0⟩

/-- A concrete open session mid-stream, with `pts = 3`. -/
def sOpen3 : EncoderState :=
  ⟨true, true, true, true, false, false, 3⟩

/-- Concrete environments for three `encodeFrame` calls: the first fails in
the converter, the second encodes and drains one packet, the third is
rejected by `avcodec_send_frame`. -/
def c2Envs : List EncodeEnv :=
  [⟨false, true, []⟩, ⟨true, true, [Ev.pkt true, Ev.again]⟩, ⟨true, false, []⟩]

/-- Concrete flush-loop answers: a transient `EAGAIN` first (the codec
needs another internal pass), then a packet, then end of stream. -/
def c3Evs : List Ev :=
  [Ev.again, Ev.pkt true, Ev.eos]

/-- Concrete `finalize` environment built on `c3Evs`. -/
def c3Env : FinalizeEnv :=
  ⟨true, c3Evs, true⟩

/-- Concrete `initialize` run in which every step succeeds except the final
`avformat_write_header`. -/
def initHeaderFailEnv : InitEnv :=
  ⟨true, true, true, true, true, true, true, true, false⟩

/-- Concrete `initialize` run in which every step up to and including
`avcodec_alloc_context3` succeeds and `avcodec_open2` fails. -/
def initCodecOpenFailEnv : InitEnv :=
  ⟨true, true, true, true, true, false, true, true, true⟩

/-- Concrete `initialize` run in which the codec name is unresolvable. -/
def initNoCodecEnv : InitEnv :=
  ⟨true, true, true, false, true, true, true, true, true⟩

/-! ## Helper lemmas -/

theorem encodeFrame_state (env : EncodeEnv) (s : EncoderState) :
    (encodeFrame env s).state = (encodeFrameBody env s).2.1 := by
  unfold encodeFrame
  cases (encodeFrameBody env s).1 <;> rfl

theorem encodeFrame_trace (env : EncodeEnv) (s : EncoderState) :
    (encodeFrame env s).trace = (encodeFrameBody env s).2.2 := by
  unfold encodeFrame
  cases (encodeFrameBody env s).1 <;> rfl

theorem encodeFrameBody_state (env : EncodeEnv) (s : EncoderState) :
    (encodeFrameBody env s).2.1 = s ∨
    (encodeFrameBody env s).2.1 = { s with pts := s.pts + 1 } := by
  unfold encodeFrameBody
  by_cases ho : isOpen s = false <;> by_cases hc : env.convertOk = false <;>
    by_cases hs : env.sendOk = false <;> simp [ho, hc, hs]

theorem isOpen_setPts (s : EncoderState) (p : Int) :
    isOpen { s with pts := p } = isOpen s := rfl

theorem encodeFrame_isOpen (env : EncodeEnv) (s : EncoderState) :
    isOpen (encodeFrame env s).state = isOpen s := by
  rw [encodeFrame_state]
  rcases encodeFrameBody_state env s with h | h <;> rw [h]
  exact isOpen_setPts s (s.pts + 1)

theorem sends_append (l1 l2 : List Act) :
    sends (l1 ++ l2) = sends l1 ++ sends l2 := by
  induction l1 with
  | nil => rfl
  | cons a tr ih => cases a <;> simp [sends, ih]

theorem sends_pktActs : sends pktActs = [] := rfl

theorem sends_encodeDrain (evs : List Ev) : sends (encodeDrain evs).2 = [] := by
  induction evs with
  | nil => rfl
  | cons e rest ih =>
    cases e with
    | again => rfl
    | eos => rfl
    | recvErr => rfl
    | pkt ok =>
      cases ok with
      | true => simpa [encodeDrain, sends_append, sends_pktActs] using ih
      | false => rfl

theorem encodeFrame_step (env : EncodeEnv) (s : EncoderState)
    (h : isOpen s = true) :
    isOpen (encodeFrame env s).state = true ∧
    ((sends (encodeFrame env s).trace = [] ∧
        (encodeFrame env s).state.pts = s.pts) ∨
     (sends (encodeFrame env s).trace = [s.pts] ∧
        (encodeFrame env s).state.pts = s.pts + 1)) := by
  refine ⟨by rw [encodeFrame_isOpen, h], ?_⟩
  rw [encodeFrame_state, encodeFrame_trace]
  unfold encodeFrameBody
  by_cases hc : env.convertOk = false
  · simp [h, hc, sends]
  · by_cases hs : env.sendOk = false
    · simp [h, hc, hs, sends]
    · simp [h, hc, hs, sends, sends_encodeDrain]

theorem runEncodes_spec (envs : List EncodeEnv) (s : EncoderState)
    (h : isOpen s = true) :
    isOpen (runEncodes envs s).1 = true ∧
    sends (runEncodes envs s).2
      = consecFrom s.pts (sends (runEncodes envs s).2).length ∧
    (runEncodes envs s).1.pts
      = s.pts + (sends (runEncodes envs s).2).length := by
  induction envs generalizing s with
  | nil => simp [runEncodes, sends, consecFrom, h]
  | cons e es ih =>
    obtain ⟨hopen1, hcase⟩ := encodeFrame_step e s h
    obtain ⟨ih1, ih2, ih3⟩ := ih (encodeFrame e s).state hopen1
    have htr : (runEncodes (e :: es) s).2
        = (encodeFrame e s).trace ++ (runEncodes es (encodeFrame e s).state).2 := rfl
    have hst : (runEncodes (e :: es) s).1
        = (runEncodes es (encodeFrame e s).state).1 := rfl
    rcases hcase with ⟨ht, hp⟩ | ⟨ht, hp⟩
    · rw [hp] at ih2 ih3
      refine ⟨by rw [hst]; exact ih1, ?_, ?_⟩
      · rw [htr, sends_append, ht]
        simpa using ih2
      · rw [hst, htr, sends_append, ht]
        simpa using ih3
    · rw [hp] at ih2 ih3
      refine ⟨by rw [hst]; exact ih1, ?_, ?_⟩
      · rw [htr, sends_append, ht]
        simp only [List.cons_append, List.nil_append, List.length_cons]
        rw [consecFrom]
        exact congrArg (List.cons s.pts) ih2
      · rw [hst, htr, sends_append, ht]
        simp only [List.cons_append, List.nil_append, List.length_cons]
        rw [ih3]
        push_cast
        ring

theorem writesUnrefed_cons_of_ne (a : Act) (tr : List Act)
    (h : (a == Act.write) = false) :
    writesUnrefed (a :: tr) = writesUnrefed tr := by
  cases tr <;> simp [writesUnrefed, h]

theorem writesUnrefed_pktActs_append (tr : List Act) :
    writesUnrefed (pktActs ++ tr) = writesUnrefed tr := by
  cases tr <;> simp [pktActs, writesUnrefed]

theorem writesUnrefed_encodeDrain (evs : List Ev) :
    writesUnrefed (encodeDrain evs).2 = true := by
  induction evs with
  | nil => rfl
  | cons e rest ih =>
    cases e with
    | again => rfl
    | eos => rfl
    | recvErr => rfl
    | pkt ok =>
      cases ok with
      | true => simpa [encodeDrain, writesUnrefed_pktActs_append] using ih
      | false => rfl

theorem writesUnrefed_flushDrain_append (evs : List Ev) (suf : List Act) :
    writesUnrefed ((flushDrain evs).2 ++ suf) = writesUnrefed suf := by
  induction evs generalizing suf with
  | nil => rfl
  | cons e rest ih =>
    cases e with
    | again => rfl
    | eos => rfl
    | recvErr => rfl
    | pkt ok =>
      cases ok with
      | true =>
        simp only [flushDrain, if_true, List.append_assoc]
        rw [writesUnrefed_pktActs_append]
        exact ih suf
      | false =>
        simp only [flushDrain]
        exact writesUnrefed_pktActs_append suf

theorem finalize_state_eq (env : FinalizeEnv) (s : EncoderState) :
    (finalize env s).2.1 = s := by
  unfold finalize
  by_cases ho : isOpen s = false
  · simp [ho]
  · by_cases hf : env.flushSendOk = false
    · simp [ho, hf]
    · cases hfd : (flushDrain env.events).1 <;>
        by_cases ht : env.trailerOk <;> simp [ho, hf, hfd, ht]

/-! ## Claim theorems -/

/-- Claim C1: when the converter fails inside `encodeFrame`, the call
returns `false`, the session state (in particular the `pts` counter) is
unchanged, and no frame is submitted to the codec; a later `encodeFrame`
call on the same state that converts successfully submits a frame stamped
with exactly the `pts` the failed call would have used. -/
theorem convert_failure_isolated (env env2 : EncodeEnv) (s : EncoderState)
    (hopen : isOpen s = true) (hc : env.convertOk = false)
    (hc2 : env2.convertOk = true) :
    encodeFrame env s = ⟨false, s, [], [Err.convertErr]⟩ ∧
    (∀ p : Int, Act.send p ∉ (encodeFrame env s).trace) ∧
    Act.send s.pts ∈ (encodeFrame env2 s).trace := by
  have h1 : encodeFrame env s = ⟨false, s, [], [Err.convertErr]⟩ := by
    unfold encodeFrame encodeFrameBody
    simp [hopen, hc]
  refine ⟨h1, fun p => by rw [h1]; simp, ?_⟩
  rw [encodeFrame_trace]
  unfold encodeFrameBody
  by_cases hs : env2.sendOk = false <;> simp [hopen, hc2, hs]

theorem convert_failure_isolated_witness :
    encodeFrame ⟨false, true, []⟩ sOpen3 = ⟨false, sOpen3, [], [Err.convertErr]⟩ ∧
    Act.send sOpen3.pts ∈ (encodeFrame ⟨true, true, [Ev.again]⟩ sOpen3).trace :=
  ⟨(convert_failure_isolated ⟨false, true, []⟩ ⟨true, true, [Ev.again]⟩ sOpen3
      (by decide) (by decide) (by decide)).1,
   (convert_failure_isolated ⟨false, true, []⟩ ⟨true, true, [Ev.again]⟩ sOpen3
      (by decide) (by decide) (by decide)).2.2⟩

/-- Claim C2: starting from an open session with `pts = 0`, across any
sequence of `encodeFrame` calls the presentation timestamps stamped on the
successively submitted frames are exactly `0, 1, 2, ...` (the list of
stamps equals `consecFrom 0` of its own length), the counter equals the
number of submitted frames afterwards (incremented once per submitted
frame and never reset), and the session is still open — regardless of how
many packets each call drains. -/
theorem encode_pts_consecutive (envs : List EncodeEnv) (s : EncoderState)
    (hopen : isOpen s = true) (h0 : s.pts = 0) :
    sends (runEncodes envs s).2
      = consecFrom 0 (sends (runEncodes envs s).2).length ∧
    (runEncodes envs s).1.pts
      = ((sends (runEncodes envs s).2).length : Int) ∧
    isOpen (runEncodes envs s).1 = true := by
  obtain ⟨h1, h2, h3⟩ := runEncodes_spec envs s hopen
  rw [h0] at h2 h3
  exact ⟨h2, by simpa using h3, h1⟩

theorem encode_pts_consecutive_witness :
    (sends (runEncodes c2Envs sOpen0).2
       = consecFrom 0 (sends (runEncodes c2Envs sOpen0).2).length ∧
     (runEncodes c2Envs sOpen0).1.pts
       = ((sends (runEncodes c2Envs sOpen0).2).length : Int) ∧
     isOpen (runEncodes c2Envs sOpen0).1 = true) ∧
    sends (runEncodes c2Envs sOpen0).2 = [0, 1] :=
  ⟨encode_pts_consecutive c2Envs sOpen0 (by decide) (by decide), by decide⟩

/-- Claim C3 (refuted — code bug): the claim says the flush loop treats an
`AVERROR(EAGAIN)` answer during drain as "try again", terminates only at
the explicit end-of-stream signal, and writes the trailer only after the
codec is fully drained.  In the source the `continue` at Encoder.cpp line
247 re-evaluates `while (ret >= 0)` with `ret = AVERROR(EAGAIN) < 0`, so
the loop exits at the first `EAGAIN`: for every answer list, an `EAGAIN`
head leaves the loop (while the spec's loop `flushDrainSpec` keeps
looping), and on the concrete answers `[EAGAIN, packet, EOS]` the code
drains nothing, writes the trailer immediately after the flush send, and
`finalize` returns `true`, although the end-of-stream signal was never
received — whereas the spec's loop would relay the pending packet and
terminate at the `EOS`. -/
theorem flush_eagain_exits_loop (evs : List Ev) :
    (flushDrain (Ev.again :: evs)).1 = FlushStep.eagainExit ∧
    flushDrainSpec (Ev.again :: evs) = flushDrainSpec evs ∧
    (flushDrain c3Evs).1 = FlushStep.eagainExit ∧
    (flushDrain c3Evs).2 = [] ∧
    (flushDrainSpec c3Evs).1 = FlushStep.drained ∧
    (flushDrainSpec c3Evs).2 = pktActs ∧
    (finalize c3Env sOpen0).1 = FinalizeRet.retTrue ∧
    (finalize c3Env sOpen0).2.2 = [Act.sendFlush, Act.writeTrailer] :=
  ⟨rfl, rfl, by decide, by decide, by decide, by decide, by decide, by decide⟩

/-- Claim C4 (refuted — the claim says no exception escapes `close` and
that `close` is safe after a prior successful `finalize` and from the
destructor): evaluated on a concrete open session, a first `finalize`
succeeds and leaves the session state unchanged; `close` then re-runs
`finalize`, whose flush `avcodec_send_frame(ctx, nullptr)` now reports
`AVERROR_EOF` (the codec was already flushed), so `finalize` throws and the
exception escapes `close` before any teardown (the state is untouched and
still open), and from the destructor this terminates the program.  A
trailer-write failure likewise escapes a first `close`. -/
theorem close_after_finalize_throws :
    (finalize ⟨true, [Ev.eos], true⟩ sOpen0).1 = FinalizeRet.retTrue ∧
    (finalize ⟨true, [Ev.eos], true⟩ sOpen0).2.1 = sOpen0 ∧
    (close ⟨false, [], true⟩ sOpen0).1 = CloseRet.thrown Err.flushSendErr ∧
    (close ⟨false, [], true⟩ sOpen0).2 = sOpen0 ∧
    isOpen (close ⟨false, [], true⟩ sOpen0).2 = true ∧
    destructor ⟨false, [], true⟩ sOpen0 = DtorRet.terminated ∧
    (close ⟨true, [Ev.eos], false⟩ sOpen0).1 = CloseRet.thrown Err.trailerWriteErr := by
  decide

/-- Claim C5 (refuted — the claim says `isOpen` reports `false` after any
failed `initialize`): from the constructor state, an `initialize` run in
which only the final `avformat_write_header` fails throws, yet both
`formatCtx` and `codecCtx` are already set, so `isOpen` reports `true`;
likewise for a failure of `avcodec_open2`.  Only failures before the codec
context is allocated (e.g. an unresolvable codec name) leave `isOpen`
false. -/
theorem init_failure_leaves_open :
    (initEncoder initHeaderFailEnv initialState).1
      = InitRet.thrown Err.headerWriteErr ∧
    isOpen (initEncoder initHeaderFailEnv initialState).2 = true ∧
    (initEncoder initCodecOpenFailEnv initialState).1
      = InitRet.thrown Err.codecOpenErr ∧
    isOpen (initEncoder initCodecOpenFailEnv initialState).2 = true ∧
    (initEncoder initNoCodecEnv initialState).1
      = InitRet.thrown Err.encoderNotFoundErr ∧
    isOpen (initEncoder initNoCodecEnv initialState).2 = false := by
  decide

/-- Claim C6: `encodeFrame` is a catch-and-signal boundary — whenever its
body raises any internal error (not open, conversion failure, send
rejection, mid-stream encode error, packet-write error) the call returns
`false` with exactly that diagnostic emitted, a body that completes
returns `true` with no diagnostic, and the call never changes whether the
session is open, so later `encodeFrame`/`finalize`/`close` calls remain
possible. -/
theorem encodeFrame_catch_boundary (env : EncodeEnv) (s : EncoderState) :
    ((encodeFrameBody env s).1 = none →
      (encodeFrame env s).ret = true ∧ (encodeFrame env s).diags = []) ∧
    (∀ e : Err, (encodeFrameBody env s).1 = some e →
      (encodeFrame env s).ret = false ∧ (encodeFrame env s).diags = [e]) ∧
    isOpen (encodeFrame env s).state = isOpen s := by
  refine ⟨?_, ?_, encodeFrame_isOpen env s⟩
  · intro h
    unfold encodeFrame
    simp [h]
  · intro e h
    unfold encodeFrame
    simp [h]

theorem encodeFrame_catch_boundary_witness :
    ((encodeFrame ⟨false, true, []⟩ sOpen0).ret = false ∧
     (encodeFrame ⟨false, true, []⟩ sOpen0).diags = [Err.convertErr]) ∧
    isOpen (encodeFrame ⟨false, true, []⟩ sOpen0).state = isOpen sOpen0 :=
  ⟨(encodeFrame_catch_boundary ⟨false, true, []⟩ sOpen0).2.1 Err.convertErr
     (by decide),
   (encodeFrame_catch_boundary ⟨false, true, []⟩ sOpen0).2.2⟩

/-- Claim C7: `finalize` on a session that is not open returns `false`
without raising and without touching the state; on an open session a
flush-send failure, a flush-loop failure, or a trailer-write failure is
propagated as the corresponding thrown error; and a fully drained flush
followed by a successful trailer write returns `true`. -/
theorem finalize_contract (env : FinalizeEnv) (s : EncoderState) :
    (isOpen s = false → finalize env s = (FinalizeRet.retFalse, s, [])) ∧
    (isOpen s = true → env.flushSendOk = false →
      (finalize env s).1 = FinalizeRet.thrown Err.flushSendErr) ∧
    (isOpen s = true → env.flushSendOk = true →
      ∀ e : Err, (flushDrain env.events).1 = FlushStep.threw e →
      (finalize env s).1 = FinalizeRet.thrown e) ∧
    (isOpen s = true → env.flushSendOk = true →
      (flushDrain env.events).1 = FlushStep.drained → env.trailerOk = false →
      (finalize env s).1 = FinalizeRet.thrown Err.trailerWriteErr) ∧
    (isOpen s = true → env.flushSendOk = true →
      (flushDrain env.events).1 = FlushStep.drained → env.trailerOk = true →
      (finalize env s).1 = FinalizeRet.retTrue) := by
  refine ⟨?_, ?_, ?_, ?_, ?_⟩ <;> intros <;> unfold finalize <;> simp [*]

theorem finalize_contract_witness :
    finalize ⟨true, [Ev.eos], true⟩ initialState
      = (FinalizeRet.retFalse, initialState, []) ∧
    (finalize ⟨true, [Ev.pkt true, Ev.eos], true⟩ sOpen0).1
      = FinalizeRet.retTrue ∧
    (finalize ⟨true, [Ev.eos], false⟩ sOpen0).1
      = FinalizeRet.thrown Err.trailerWriteErr :=
  ⟨(finalize_contract ⟨true, [Ev.eos], true⟩ initialState).1 (by decide),
   (finalize_contract ⟨true, [Ev.pkt true, Ev.eos], true⟩ sOpen0).2.2.2.2
     (by decide) (by decide) (by decide) (by decide),
   (finalize_contract ⟨true, [Ev.eos], false⟩ sOpen0).2.2.2.1
     (by decide) (by decide) (by decide) (by decide)⟩

/-- Claim C8: in both the `encodeFrame` drain loop and the `finalize` flush
loop, every write attempt in the interaction trace — successful or failed —
is immediately followed by an `av_packet_unref`, for every environment and
state. -/
theorem packet_unref_after_write (eenv : EncodeEnv) (fenv : FinalizeEnv)
    (s t : EncoderState) :
    writesUnrefed (encodeFrame eenv s).trace = true ∧
    writesUnrefed (finalize fenv t).2.2 = true := by
  constructor
  · rw [encodeFrame_trace]
    unfold encodeFrameBody
    by_cases ho : isOpen s = false
    · simp [ho, writesUnrefed]
    · by_cases hc : eenv.convertOk = false
      · simp [ho, hc, writesUnrefed]
      · by_cases hs : eenv.sendOk = false
        · simp [ho, hc, hs]
          rw [writesUnrefed_cons_of_ne Act.convert _ (by decide),
              writesUnrefed_cons_of_ne (Act.send s.pts) _ (by simp)]
          rfl
        · simp [ho, hc, hs]
          rw [writesUnrefed_cons_of_ne Act.convert _ (by decide),
              writesUnrefed_cons_of_ne (Act.send s.pts) _ (by simp)]
          exact writesUnrefed_encodeDrain eenv.events
  · unfold finalize
    by_cases ho : isOpen t = false
    · simp [ho, writesUnrefed]
    · by_cases hf : fenv.flushSendOk = false
      · simp [ho, hf, writesUnrefed]
      · cases hfd : (flushDrain fenv.events).1 with
        | drained =>
          by_cases ht : fenv.trailerOk <;> simp [ho, hf, hfd, ht] <;>
            rw [writesUnrefed_cons_of_ne Act.sendFlush _ (by decide),
                writesUnrefed_flushDrain_append] <;> rfl
        | eagainExit =>
          by_cases ht : fenv.trailerOk <;> simp [ho, hf, hfd, ht] <;>
            rw [writesUnrefed_cons_of_ne Act.sendFlush _ (by decide),
                writesUnrefed_flushDrain_append] <;> rfl
        | threw e =>
          simp [ho, hf, hfd]
          rw [writesUnrefed_cons_of_ne Act.sendFlush _ (by decide)]
          have := writesUnrefed_flushDrain_append fenv.events []
          simpa using this
        | starved =>
          simp [ho, hf, hfd]
          rw [writesUnrefed_cons_of_ne Act.sendFlush _ (by decide)]
          have := writesUnrefed_flushDrain_append fenv.events []
          simpa using this

/-- Claim C9: `finalize` leaves the session state — in particular the codec
and format contexts, hence `isOpen` — exactly as it found it, so a session
still reports open after a successful `finalize`; only a `close` that runs
to completion (resetting both contexts) makes `isOpen` report `false`. -/
theorem finalize_preserves_isOpen (env env2 : FinalizeEnv) (s : EncoderState) :
    (finalize env s).2.1 = s ∧
    isOpen (finalize env s).2.1 = isOpen s ∧
    ((close env2 s).1 = CloseRet.done → isOpen (close env2 s).2 = false) := by
  refine ⟨finalize_state_eq env s, by rw [finalize_state_eq env s], ?_⟩
  intro h
  unfold close at h ⊢
  cases hfin : (finalize env2 s).1 <;> simp [hfin] at h ⊢ <;> rfl

theorem finalize_preserves_isOpen_witness :
    ((finalize ⟨true, [Ev.eos], true⟩ sOpen0).2.1 = sOpen0 ∧
     isOpen (finalize ⟨true, [Ev.eos], true⟩ sOpen0).2.1 = isOpen sOpen0) ∧
    isOpen (close ⟨true, [Ev.eos], true⟩ sOpen0).2 = false :=
  ⟨⟨(finalize_preserves_isOpen ⟨true, [Ev.eos], true⟩ ⟨true, [Ev.eos], true⟩
       sOpen0).1,
    (finalize_preserves_isOpen ⟨true, [Ev.eos], true⟩ ⟨true, [Ev.eos], true⟩
       sOpen0).2.1⟩,
   (finalize_preserves_isOpen ⟨true, [Ev.eos], true⟩ ⟨true, [Ev.eos], true⟩
       sOpen0).2.2 (by decide)⟩

/-- Claim C10: `encodeFrame` on a session that is not open (never
initialized, closed, or moved-from) returns `false` with the not-open
diagnostic, performs no codec interaction, and leaves the whole session
state — including the `pts` counter — unchanged. -/
theorem encodeFrame_not_open (env : EncodeEnv) (s : EncoderState)
    (h : isOpen s = false) :
    encodeFrame env s = ⟨false, s, [], [Err.notOpenErr]⟩ := by
  unfold encodeFrame encodeFrameBody
  simp [h]

theorem encodeFrame_not_open_witness :
    encodeFrame ⟨true, true, [Ev.pkt true]⟩ (movedFrom sOpen3)
      = ⟨false, movedFrom sOpen3, [], [Err.notOpenErr]⟩ :=
  encodeFrame_not_open ⟨true, true, [Ev.pkt true]⟩ (movedFrom sOpen3) (by decide)

end CeLux
